import Mathlib

/-
Verification of the movie-booking application (`app.py`, `models.py`).

The development shallowly embeds the pieces of the program the specification
talks about:

  * the snapshot cache and the two catalog operations `get_recent_movies`
    and `get_movie_details` (`app.py` lines 79-133), with the external HTTP
    responses supplied as explicit parameters;
  * the booking POST handler `movie_page` (lines 174-232), the cancellation
    handler `cancel_booking` (lines 296-304), and the relational `Booking`
    rows from `models.py`, with the database modelled as a list of rows;
  * the retry configuration `retries` (lines 50-56) together with a model of
    the urllib3 `Retry` machinery it parametrises.

Python-level conventions mirrored here: a form field is `Option String`
(`none` = absent from the form), Python truthiness of a string field is
"present and non-empty", `int(s)` is a parse that can raise (the raise is
modelled with `Except`), and `x or y` picks `y` when `x` is falsy.
-/

namespace MovieBook

/-! ## Python semantics helpers -/

/-- Emptiness of a string, computed on its character list so that the kernel
can evaluate it on literals. -/
def strEmpty (s : String) : Bool := s.data.isEmpty

/-- Truthiness of an optional string, as Python evaluates `request.form.get(k)`
in a boolean context: `None` and the empty string are falsy. -/
def truthyStr : Option String → Bool
  | some s => !strEmpty s
  | none => false

/-- The value of `request.form.get("movie_title") or "Unknown"` (`app.py`
line 181): Python `or` replaces a missing or empty string with the literal
`"Unknown"`. -/
def titleOrUnknown : Option String → String
  | some s => if strEmpty s then "Unknown" else s
  | none => "Unknown"

/-- Python `int(s)` on a string: strip surrounding whitespace, allow one
leading sign, then require at least one decimal digit; any other input
raises `ValueError`, which this model signals with `none`. -/
def pyInt (s : String) : Option Int :=
  let t := ((s.data.dropWhile Char.isWhitespace).reverse.dropWhile Char.isWhitespace).reverse
  let sign : Int := match t with | '-' :: _ => -1 | _ => 1
  let digits := match t with
    | '-' :: rest => rest
    | '+' :: rest => rest
    | _ => t
  if digits.isEmpty then none
  else if digits.all Char.isDigit then
    some (sign * Int.ofNat (digits.foldl (fun acc c => acc * 10 + (c.toNat - 48)) 0))
  else none

example : pyInt "2" = some 2 := by decide
example : pyInt "0" = some 0 := by decide
example : pyInt "abc" = none := by decide
example : pyInt "" = none := by decide

/-! ## Movie records and API responses -/

/-- The fields of a TMDb movie JSON object that the embedded operations
inspect; each is `Option` because a JSON key may be absent (`dict.get`
returns `None`). A numeric `id` of `0`, like a missing key, is falsy in
the completeness filter. -/
structure Movie where
  id : Option Int
  title : Option String
  poster_path : Option String
  deriving DecidableEq

/-- The filter `m.get("id") and m.get("title") and m.get("poster_path")`
applied on `app.py` lines 112 and 119: every field present and truthy. -/
def movieComplete (m : Movie) : Bool :=
  (match m.id with | some n => n != 0 | none => false)
    && (match m.title with | some t => !strEmpty t | none => false)
    && (match m.poster_path with | some p => !strEmpty p | none => false)

/-- A list-endpoint JSON payload: `results` is `some` when the `"results"`
key is present. -/
structure ListPayload where
  results : Option (List Movie)
  deriving DecidableEq

/-- The guard `data and "results" in data` (`app.py` lines 111 and 118):
`tmdb_get` returned a payload carrying a `"results"` list. A falsy (empty)
dict has no `"results"` key, so both failure shapes collapse to `none`. -/
def resultsOf : Option ListPayload → Option (List Movie)
  | some payload => payload.results
  | none => none

/-! ## Snapshot cache -/

/-- Local snapshot-cache directory state: `recent` is the readable content of
`cache/recent.json` (`none` when the file is absent or `cache_read` failed to
parse it), and `movieFiles` records writes to the per-movie files
`cache/movie_{id}.json`, most recent write first. -/
structure CacheState where
  recent : Option (List Movie)
  movieFiles : List (Int × Movie)
  deriving DecidableEq

/-- The raw disk write inside `cache_write` (`app.py` line 89): `ok = false`
models a serialization error or an unwritable disk, raising an exception. -/
def diskWrite (ok : Bool) (new : α) : Except Unit α :=
  if ok then .ok new else .error ()

/-- The function `cache_write` (`app.py` lines 87-91): attempt the disk
write and swallow any exception, leaving the old file content in place.
The result is the content the cache key holds afterwards. -/
def cache_write (ok : Bool) (old new : α) : α :=
  match diskWrite ok new with
  | .ok v => v
  | .error _ => old

/-- Reading `cache/movie_{id}.json`: the most recent write for that id, as
`cache_read` (`app.py` lines 79-85) returns it, `none` when never written. -/
def lookupMovie : List (Int × Movie) → Int → Option Movie
  | [], _ => none
  | (k, v) :: rest, i => if k = i then some v else lookupMovie rest i

/-! ## Movie Catalog Service -/

/-- The completeness filter plus non-emptiness test shared by the two
branches of `get_recent_movies` (`app.py` lines 111-115 and 117-122):
`some movies` exactly when the payload has a `"results"` list whose
complete records form a non-empty list. -/
def usableResults (resp : Option ListPayload) : Option (List Movie) :=
  match resultsOf resp with
  | some rs =>
    let movies := rs.filter movieComplete
    if movies.isEmpty then none else some movies
  | none => none

/-- The function `get_recent_movies` (`app.py` lines 93-125). The two
network responses (`/discover/movie` and `/trending/movie/week`) and the
disk-write outcome are explicit parameters; the function returns the list
handed to the caller together with the cache state left behind. The final
fallback mirrors `cached = cache_read(cache_file); return cached or []`. -/
def get_recent_movies (live trend : Option ListPayload) (writeOk : Bool)
    (st : CacheState) : List Movie × CacheState :=
  match usableResults live with
  | some movies => (movies, { st with recent := cache_write writeOk st.recent (some movies) })
  | none =>
    match usableResults trend with
    | some movies => (movies, { st with recent := cache_write writeOk st.recent (some movies) })
    | none =>
      (match st.recent with
       | some cached => if cached.isEmpty then [] else cached
       | none => [], st)

/-- The function `get_movie_details` (`app.py` lines 127-133): if the fetch
produced a payload whose `id` equals the requested id, cache and return it;
otherwise serve whatever `cache/movie_{movie_id}.json` holds. -/
def get_movie_details (movie_id : Int) (resp : Option Movie) (writeOk : Bool)
    (st : CacheState) : Option Movie × CacheState :=
  match resp with
  | some data =>
    if data.id = some movie_id then
      (some data,
       { st with movieFiles := cache_write writeOk st.movieFiles ((movie_id, data) :: st.movieFiles) })
    else (lookupMovie st.movieFiles movie_id, st)
  | none => (lookupMovie st.movieFiles movie_id, st)

/-- One cache-mutating call of the application, with its external inputs. -/
inductive CacheOp where
  | fetchRecent (live trend : Option ListPayload) (writeOk : Bool)
  | fetchDetails (movie_id : Int) (resp : Option Movie) (writeOk : Bool)

/-- Effect of one catalog call on the snapshot-cache directory. -/
def applyCacheOp (st : CacheState) : CacheOp → CacheState
  | .fetchRecent live trend ok => (get_recent_movies live trend ok st).2
  | .fetchDetails mid resp ok => (get_movie_details mid resp ok st).2

/-- The cache directory starts empty (`CACHE_DIR.mkdir(exist_ok=True)`). -/
def initCache : CacheState := { recent := none, movieFiles := [] }

/-- Cache state after a sequence of catalog calls from process start. -/
def runCacheOps (ops : List CacheOp) : CacheState :=
  ops.foldl applyCacheOp initCache

/-- Invariant of the `recent.json` snapshot: it only ever holds filtered
(complete) records. -/
def recentInv (st : CacheState) : Prop :=
  ∀ l, st.recent = some l → ∀ m ∈ l, movieComplete m = true

/-- Invariant of the per-movie snapshots: the file for id `i` only ever
holds a payload whose own id is `i`. -/
def movieFilesInv (st : CacheState) : Prop :=
  ∀ p ∈ st.movieFiles, (Prod.snd p).id = some (Prod.fst p)

/-! ## Relational store: users and bookings -/

/-- The columns of `User` (`models.py` lines 6-10) the booking flow reads. -/
structure UserRec where
  id : Nat
  name : String
  email : String
  deriving DecidableEq

/-- A `Booking` row (`models.py` lines 12-22). `created_at` is the wall-clock
instant `datetime.now()` passed in by the handler, modelled as a Nat tick. -/
structure BookingRow where
  id : Nat
  user_id : Nat
  movie_id : Int
  movie_title : String
  name : String
  email : String
  seats : Int
  showtime : String
  date : String
  created_at : Nat
  deriving DecidableEq

/-- The bookings table plus the autoincrement counter the store uses to
assign primary keys. -/
structure DbState where
  bookings : List BookingRow
  nextId : Nat
  deriving DecidableEq

/-- A fresh database, as `db.create_all()` leaves it. -/
def initDb : DbState := { bookings := [], nextId := 1 }

/-- The booking form as Flask hands it to `movie_page`: each field is `none`
when the POST body omits it. -/
structure BookingForm where
  movie_title : Option String
  seats : Option String
  showtime : Option String
  date : Option String
  deriving DecidableEq

/-- Flash message of the validation branch (`app.py` line 187). -/
def validationMsg : String := "🎬 Please complete all fields to book your cinematic adventure!"

/-- Flash message of the duplicate branch (`app.py` line 198). -/
def duplicateMsg : String := "🚫 You have already booked this movie for the selected showtime and date."

/-- Flash message of the commit branch (`app.py` line 216). -/
def successMsg : String := "🍿 Booking successful! Get ready for a blockbuster experience."

/-- Flash message of the details-unavailable page (`app.py` line 221). -/
def unavailableMsg : String := "🚫 Movie details unavailable right now. Please try again later."

/-- The `(booking_success, message, message_type)` triple the POST block of
`movie_page` computes; `message_type` is the literal classification string
(`"warning"`, `"error"`, `"success"`). -/
structure PostOutcome where
  booking_success : Bool
  message : Option String
  message_type : Option String
  deriving DecidableEq

/-- The duplicate-booking query (`app.py` lines 191-196):
`Booking.query.filter_by(movie_id=…, user_id=…, showtime=…, date=…).first()`
is truthy. -/
def hasDuplicate (st : DbState) (uid : Nat) (mid : Int)
    (showtime date_selected : String) : Bool :=
  st.bookings.any fun b =>
    b.movie_id == mid && b.user_id == uid && b.showtime == showtime && b.date == date_selected

/-- Number of rows matching the duplicate-booking query. -/
def matchCount (st : DbState) (uid : Nat) (mid : Int)
    (showtime date_selected : String) : Nat :=
  st.bookings.countP fun b =>
    b.movie_id == mid && b.user_id == uid && b.showtime == showtime && b.date == date_selected

/-- The POST block of `movie_page` (`app.py` lines 180-217): read the form,
reject when a field is missing or empty, reject a duplicate, otherwise build
and commit a row. `int(seats)` is evaluated while the `Booking(...)`
constructor call is assembled, after the duplicate check; when it raises
`ValueError` nothing is added and the exception escapes the handler,
modelled by `Except.error`. -/
def movie_page_post (movie_id : Int) (u : UserRec) (form : BookingForm)
    (now : Nat) (st : DbState) : Except Unit (PostOutcome × DbState) :=
  let movie_title := titleOrUnknown form.movie_title
  if !(truthyStr form.seats && truthyStr form.showtime && truthyStr form.date) then
    .ok ({ booking_success := false, message := some validationMsg,
           message_type := some "warning" }, st)
  else
    let seats := form.seats.getD ""
    let showtime := form.showtime.getD ""
    let date_selected := form.date.getD ""
    if hasDuplicate st u.id movie_id showtime date_selected then
      .ok ({ booking_success := false, message := some duplicateMsg,
             message_type := some "error" }, st)
    else
      match pyInt seats with
      | none => .error ()
      | some n =>
        let booking : BookingRow :=
          { id := st.nextId, user_id := u.id, movie_id := movie_id,
            movie_title := movie_title, name := u.name, email := u.email,
            seats := n, showtime := showtime, date := date_selected,
            created_at := now }
        .ok ({ booking_success := true, message := some successMsg,
               message_type := some "success" },
             { bookings := st.bookings ++ [booking], nextId := st.nextId + 1 })

/-- What `movie_page` renders after the POST block: the details-unavailable
page (`app.py` line 221) or the movie page with the flash triple. -/
inductive PageResponse where
  | unavailable
  | page (movie : Movie) (booking_success : Bool)
      (message : Option String) (message_type : Option String)
  deriving DecidableEq

/-- The whole of `movie_page` on a POST (`app.py` lines 174-232): run the
POST block against the bookings table, then — afterwards, and regardless of
the outcome of the commit — look the movie up via `get_movie_details` and
render. The external detail response and the cache-write outcome are
explicit parameters. -/
def movie_page_handler (movie_id : Int) (u : UserRec) (form : BookingForm)
    (now : Nat) (detailResp : Option Movie) (writeOk : Bool)
    (db : DbState) (cache : CacheState) :
    Except Unit (PageResponse × DbState × CacheState) :=
  match movie_page_post movie_id u form now db with
  | .error e => .error e
  | .ok (out, db') =>
    let fetched := get_movie_details movie_id detailResp writeOk cache
    match fetched.1 with
    | none => .ok (.unavailable, db', fetched.2)
    | some movie =>
      .ok (.page movie out.booking_success out.message out.message_type, db', fetched.2)

/-- Remove the first list element satisfying `p`: the effect of
`db.session.delete` on the row returned by `.first()`. -/
def eraseFirstBy (p : BookingRow → Bool) : List BookingRow → List BookingRow
  | [] => []
  | b :: bs => if p b then bs else b :: eraseFirstBy p bs

/-- The handler `cancel_booking` (`app.py` lines 296-304): find the row by
`filter_by(id=booking_id, email=current_user.email)`; delete it and render
the cancellation page when found (`true`), otherwise redirect to the
dashboard (`false`) leaving the table alone. -/
def cancel_booking (booking_id : Nat) (userEmail : String) (st : DbState) :
    Bool × DbState :=
  match st.bookings.find? (fun b => b.id == booking_id && b.email == userEmail) with
  | some _ =>
    let remaining := eraseFirstBy (fun b => b.id == booking_id && b.email == userEmail) st.bookings
    (true, { st with bookings := remaining })
  | none => (false, st)

/-- One bookings-table mutating request of the application. -/
inductive DbOp where
  | book (movie_id : Int) (u : UserRec) (form : BookingForm) (now : Nat)
  | cancel (booking_id : Nat) (u : UserRec)

/-- Effect of one request on the bookings table. A `ValueError` escaping the
POST block aborts the request before `db.session.add`, so the table is
unchanged. -/
def applyDbOp (st : DbState) : DbOp → DbState
  | .book mid u form now =>
    match movie_page_post mid u form now st with
    | .ok out => out.2
    | .error _ => st
  | .cancel bid u => (cancel_booking bid u.email st).2

/-- Database state after a sequence of requests against a fresh database. -/
def runDbOps (ops : List DbOp) : DbState :=
  ops.foldl applyDbOp initDb

/-- The uniqueness tuple of a booking row. -/
def bookingKey (b : BookingRow) : Nat × Int × String × String :=
  (b.user_id, b.movie_id, b.showtime, b.date)

/-- No two rows of the table share a `(user, movie, showtime, date)` tuple. -/
def noDupKeys (st : DbState) : Prop :=
  st.bookings.Pairwise fun a b => bookingKey a ≠ bookingKey b

/-! ## Metadata client retry policy -/

/-- The fields of the urllib3 `Retry` object constructed on `app.py`
lines 50-55. -/
structure RetryConfig where
  total : Nat
  backoff_factor : ℚ
  status_forcelist : List Nat
  allowed_methods : List String

/-- The retry policy mounted on the shared session (`app.py` lines 50-56). -/
def retries : RetryConfig :=
  { total := 4
    backoff_factor := 0.6
    status_forcelist := [429, 500, 502, 503, 504]
    allowed_methods := ["GET"] }

/-- Model of the urllib3 `Retry` machinery that `HTTPAdapter(max_retries=retries)`
installs for the GET in `tmdb_get`: the initial request is issued, and each
response whose status is in `status_forcelist` consumes one retry from the
`total` budget and causes the request to be reissued; any other status ends
the exchange at once; when the budget is spent the last response (or
`MaxRetryError`) is returned. `statuses i` is the status code the server
answers the i-th attempt with; the result is the number of HTTP attempts
made. -/
def attemptsMade (cfg : RetryConfig) (statuses : Nat → Nat) : Nat :=
  go (cfg.total + 1) 0
where
  /-- Attempt counter: `go budget i` counts attempts starting from attempt
  index `i` with `budget` attempts still allowed. -/
  go : Nat → Nat → Nat
  | 0, _ => 0
  | budget + 1, i =>
    if statuses i ∈ cfg.status_forcelist then 1 + go budget (i + 1) else 1

/-! ## Sample data used by the concrete witnesses -/

/-- A complete movie record with id 5. -/
def mHeat : Movie := { id := some 5, title := some "Heat", poster_path := some "/heat.png" }

/-- An incomplete movie record (no id). -/
def mNoId : Movie := { id := none, title := some "Mystery", poster_path := some "/m.png" }

/-- Sample authenticated user. -/
def uAlice : UserRec := { id := 1, name := "Alice", email := "alice@example.com" }

/-- A booking row owned by a different user than `uAlice`. -/
def rowBob : BookingRow :=
  { id := 1, user_id := 2, movie_id := 5, movie_title := "Heat", name := "Bob",
    email := "bob@example.com", seats := 2, showtime := "19:00", date := "2025-01-01",
    created_at := 0 }

/-- A well-formed booking form for two seats. -/
def formTwo : BookingForm :=
  { movie_title := some "Heat", seats := some "2", showtime := some "19:00",
    date := some "2025-01-01" }

/-- The same form with the non-numeric seat count the spec discusses. -/
def formAbc : BookingForm :=
  { movie_title := some "Heat", seats := some "abc", showtime := some "19:00",
    date := some "2025-01-01" }

/-- The same form with the zero seat count the spec discusses. -/
def formZero : BookingForm :=
  { movie_title := some "Heat", seats := some "0", showtime := some "19:00",
    date := some "2025-01-01" }

/-- The same form with an empty (but submitted) movie title. -/
def formEmptyTitle : BookingForm :=
  { movie_title := some "", seats := some "2", showtime := some "19:00",
    date := some "2025-01-01" }

/-! ## Helper lemmas: completeness filter -/

/-- Unfolding of the completeness filter into the three field conditions. -/
theorem movieComplete_iff (m : Movie) :
    movieComplete m = true ↔
      (∃ n, m.id = some n ∧ n ≠ 0) ∧ (∃ t, m.title = some t ∧ strEmpty t = false) ∧
      (∃ p, m.poster_path = some p ∧ strEmpty p = false) := by
  rcases m with ⟨mid, mt, mp⟩
  cases mid <;> cases mt <;> cases mp <;>
    simp [movieComplete, bne_iff_ne, and_assoc]

/-! ## Helper lemmas: snapshot-cache invariants -/

/-- A successful per-movie lookup in an invariant-respecting file set yields
a record carrying the requested id. -/
theorem lookupMovie_id (files : List (Int × Movie)) (i : Int) (m : Movie)
    (hinv : ∀ p ∈ files, (Prod.snd p).id = some (Prod.fst p))
    (h : lookupMovie files i = some m) : m.id = some i := by
  induction files with
  | nil => simp [lookupMovie] at h
  | cons p rest ih =>
    rcases p with ⟨k, v⟩
    by_cases hk : k = i
    · subst hk
      simp [lookupMovie] at h
      subst h
      exact hinv (k, v) (List.mem_cons_self _ _)
    · simp [lookupMovie, hk] at h
      exact ih (fun q hq => hinv q (List.mem_cons_of_mem _ hq)) h

/-- Lists produced by `usableResults` contain only complete records. -/
theorem usableResults_complete (resp : Option ListPayload) (movies : List Movie)
    (h : usableResults resp = some movies) : ∀ m ∈ movies, movieComplete m = true := by
  unfold usableResults at h
  cases hres : resultsOf resp with
  | none => rw [hres] at h; exact absurd h (by simp)
  | some rs =>
    rw [hres] at h
    simp only at h
    by_cases he : (rs.filter movieComplete).isEmpty
    · rw [if_pos he] at h; exact absurd h (by simp)
    · rw [if_neg he] at h
      cases h
      intro m hm
      exact (List.mem_filter.1 hm).2

/-- One application-level cache operation preserves both snapshot invariants. -/
theorem applyCacheOp_inv (st : CacheState) (op : CacheOp)
    (hr : recentInv st) (hm : movieFilesInv st) :
    recentInv (applyCacheOp st op) ∧ movieFilesInv (applyCacheOp st op) := by
  cases op with
  | fetchRecent live trend ok =>
    show recentInv (get_recent_movies live trend ok st).2 ∧
      movieFilesInv (get_recent_movies live trend ok st).2
    unfold get_recent_movies
    cases hl : usableResults live with
    | some movies =>
      refine ⟨?_, hm⟩
      intro l hl' x hx
      cases ok with
      | true =>
        simp [cache_write, diskWrite] at hl'
        subst hl'
        exact usableResults_complete live movies hl x hx
      | false =>
        simp [cache_write, diskWrite] at hl'
        exact hr l hl' x hx
    | none =>
      cases ht : usableResults trend with
      | some movies =>
        refine ⟨?_, hm⟩
        intro l hl' x hx
        cases ok with
        | true =>
          simp [cache_write, diskWrite] at hl'
          subst hl'
          exact usableResults_complete trend movies ht x hx
        | false =>
          simp [cache_write, diskWrite] at hl'
          exact hr l hl' x hx
      | none => exact ⟨hr, hm⟩
  | fetchDetails mid resp ok =>
    show recentInv (get_movie_details mid resp ok st).2 ∧
      movieFilesInv (get_movie_details mid resp ok st).2
    unfold get_movie_details
    cases resp with
    | none => exact ⟨hr, hm⟩
    | some data =>
      dsimp only
      by_cases hid : data.id = some mid
      · rw [if_pos hid]
        refine ⟨hr, ?_⟩
        intro p hp
        cases ok with
        | true =>
          have hp' : p ∈ (mid, data) :: st.movieFiles := by
            simpa [cache_write, diskWrite] using hp
          rcases List.mem_cons.1 hp' with hpe | hpm
          · subst hpe; exact hid
          · exact hm p hpm
        | false =>
          simp [cache_write, diskWrite] at hp
          exact hm p hp
      · rw [if_neg hid]
        exact ⟨hr, hm⟩

/-- Every cache state reachable from process start satisfies both snapshot
invariants. -/
theorem runCacheOps_inv (ops : List CacheOp) :
    recentInv (runCacheOps ops) ∧ movieFilesInv (runCacheOps ops) := by
  have general : ∀ (l : List CacheOp) (st : CacheState), recentInv st → movieFilesInv st →
      recentInv (l.foldl applyCacheOp st) ∧ movieFilesInv (l.foldl applyCacheOp st) := by
    intro l
    induction l with
    | nil => intro st h1 h2; exact ⟨h1, h2⟩
    | cons op rest ih =>
      intro st h1 h2
      have step := applyCacheOp_inv st op h1 h2
      exact ih (applyCacheOp st op) step.1 step.2
  refine general ops initCache ?_ ?_
  · intro l hl; simp [initCache] at hl
  · intro p hp; simp [initCache] at hp

/-! ## Helper definitions: named outcomes of the POST block -/

/-- The flash triple of the commit branch. -/
def successOutcome : PostOutcome :=
  { booking_success := true, message := some successMsg, message_type := some "success" }

/-- The flash triple of the duplicate branch. -/
def dupOutcome : PostOutcome :=
  { booking_success := false, message := some duplicateMsg, message_type := some "error" }

/-- The row the commit branch constructs (`app.py` lines 202-212), given the
autoincrement id the store assigns and the parsed seat count. -/
def postRow (mid : Int) (u : UserRec) (form : BookingForm) (now : Nat)
    (rowId : Nat) (n : Int) : BookingRow :=
  { id := rowId, user_id := u.id, movie_id := mid,
    movie_title := titleOrUnknown form.movie_title, name := u.name, email := u.email,
    seats := n, showtime := form.showtime.getD "", date := form.date.getD "",
    created_at := now }

/-- The database state after the commit branch persisted its row. -/
def afterBooking (mid : Int) (u : UserRec) (form : BookingForm) (now : Nat)
    (st : DbState) (n : Int) : DbState :=
  { bookings := st.bookings ++ [postRow mid u form now st.nextId n],
    nextId := st.nextId + 1 }

/-- The movie titles the bookings table holds after a POST, `[]` when the
request crashed. -/
def postedTitles (e : Except Unit (PostOutcome × DbState)) : List String :=
  match e with
  | .ok r => r.2.bookings.map fun b => b.movie_title
  | .error _ => []

/-- The database component of a full `movie_page` response, `none` when the
request crashed. -/
def dbOf (e : Except Unit (PageResponse × DbState × CacheState)) : Option DbState :=
  match e with
  | .ok r => some r.2.1
  | .error _ => none

/-! ## Helper lemmas: the POST block -/

/-- When validation passes, no duplicate exists and the seat field parses,
the POST block commits exactly the constructed row. -/
theorem post_success_eq (mid : Int) (u : UserRec) (form : BookingForm)
    (now : Nat) (st : DbState) (n : Int)
    (hs : truthyStr form.seats = true) (hsh : truthyStr form.showtime = true)
    (hd : truthyStr form.date = true)
    (hn : pyInt (form.seats.getD "") = some n)
    (hdup : hasDuplicate st u.id mid (form.showtime.getD "") (form.date.getD "") = false) :
    movie_page_post mid u form now st =
      .ok (successOutcome, afterBooking mid u form now st n) := by
  simp [movie_page_post, hs, hsh, hd, hdup, hn, successOutcome, afterBooking, postRow]

/-- When validation passes but a matching row already exists, the POST block
rejects with the duplicate flash and leaves the table unchanged. -/
theorem post_duplicate_eq (mid : Int) (u : UserRec) (form : BookingForm)
    (now : Nat) (st : DbState)
    (hs : truthyStr form.seats = true) (hsh : truthyStr form.showtime = true)
    (hd : truthyStr form.date = true)
    (hdup : hasDuplicate st u.id mid (form.showtime.getD "") (form.date.getD "") = true) :
    movie_page_post mid u form now st = .ok (dupOutcome, st) := by
  simp [movie_page_post, hs, hsh, hd, hdup, dupOutcome]

/-- Whatever the POST block answers, the table either stays as it was or
gains exactly one row, and only after the duplicate query came back empty. -/
theorem post_bookings_shape (mid : Int) (u : UserRec) (form : BookingForm)
    (now : Nat) (st : DbState) (out : PostOutcome) (st' : DbState)
    (h : movie_page_post mid u form now st = .ok (out, st')) :
    st' = st ∨
    (hasDuplicate st u.id mid (form.showtime.getD "") (form.date.getD "") = false ∧
     ∃ n, st' = afterBooking mid u form now st n) := by
  simp only [movie_page_post] at h
  split at h
  · simp only [Except.ok.injEq, Prod.mk.injEq] at h
    exact .inl h.2.symm
  · split at h
    · simp only [Except.ok.injEq, Prod.mk.injEq] at h
      exact .inl h.2.symm
    · rename_i hdup
      split at h
      · exact absurd h (by simp)
      · rename_i n hn
        simp only [Except.ok.injEq, Prod.mk.injEq] at h
        refine .inr ⟨by simpa using hdup, n, ?_⟩
        rw [← h.2]
        rfl

/-- Deletion by `eraseFirstBy` only ever removes elements, in place. -/
theorem eraseFirstBy_sublist (p : BookingRow → Bool) (l : List BookingRow) :
    List.Sublist (eraseFirstBy p l) l := by
  induction l with
  | nil => simp [eraseFirstBy]
  | cons b bs ih =>
    unfold eraseFirstBy
    by_cases hb : p b
    · rw [if_pos hb]; exact List.sublist_cons_self b bs
    · rw [if_neg hb]; exact ih.cons₂ b

/-- An element present before `eraseFirstBy` but gone afterwards satisfied
the deletion predicate. -/
theorem eraseFirstBy_dropped (p : BookingRow → Bool) (l : List BookingRow)
    (b : BookingRow) (hmem : b ∈ l) (hnot : b ∉ eraseFirstBy p l) : p b = true := by
  induction l with
  | nil => cases hmem
  | cons c cs ih =>
    unfold eraseFirstBy at hnot
    by_cases hc : p c
    · rw [if_pos hc] at hnot
      rcases List.mem_cons.1 hmem with he | hm
      · subst he; exact hc
      · exact absurd hm hnot
    · rw [if_neg hc] at hnot
      rcases List.mem_cons.1 hmem with he | hm
      · subst he; exact absurd (List.mem_cons_self _ _) hnot
      · exact ih hm fun hx => hnot (List.mem_cons_of_mem _ hx)

/-- One booking or cancellation request preserves key uniqueness. -/
theorem applyDbOp_noDup (st : DbState) (op : DbOp) (h : noDupKeys st) :
    noDupKeys (applyDbOp st op) := by
  cases op with
  | book mid u form now =>
    show noDupKeys (match movie_page_post mid u form now st with
      | .ok out => out.2
      | .error _ => st)
    cases hres : movie_page_post mid u form now st with
    | error e => exact h
    | ok out =>
      rcases out with ⟨out, st'⟩
      dsimp only
      rcases post_bookings_shape mid u form now st out st' hres with he | ⟨hdup, n, he⟩
      · rw [he]; exact h
      · subst he
        unfold noDupKeys at h ⊢
        simp only [afterBooking]
        rw [List.pairwise_append]
        refine ⟨h, List.pairwise_singleton _ _, ?_⟩
        intro a ha b hb
        rw [List.mem_singleton] at hb
        subst hb
        intro hkey
        rw [hasDuplicate, List.any_eq_false] at hdup
        apply hdup a ha
        simp only [bookingKey, postRow, Prod.mk.injEq] at hkey
        simp [hkey.1, hkey.2.1, hkey.2.2.1, hkey.2.2.2]
  | cancel bid u =>
    show noDupKeys (cancel_booking bid u.email st).2
    unfold cancel_booking
    cases hf : st.bookings.find? fun b => b.id == bid && b.email == u.email with
    | none => exact h
    | some c =>
      dsimp only
      unfold noDupKeys at h ⊢
      exact h.sublist (eraseFirstBy_sublist _ _)

/-- Every database state reachable from a fresh database by booking and
cancellation requests has pairwise-distinct uniqueness tuples. -/
theorem runDbOps_noDup (ops : List DbOp) : noDupKeys (runDbOps ops) := by
  have general : ∀ (l : List DbOp) (st : DbState),
      noDupKeys st → noDupKeys (l.foldl applyDbOp st) := by
    intro l
    induction l with
    | nil => intro st h; exact h
    | cons op rest ih => intro st h; exact ih _ (applyDbOp_noDup st op h)
  exact general ops initDb (by simp [noDupKeys, initDb])

/-! ## Claim C3 -/

/-- C3: over every cache state reachable by a sequence of catalog calls from
process start, `get_movie_details id` never returns a record whose identifier
differs from the requested `id`, whether it comes from the live fetch or from
the per-movie snapshot file. -/
theorem C3_details_id_matches (ops : List CacheOp) (mid : Int)
    (resp : Option Movie) (writeOk : Bool) (m : Movie)
    (h : (get_movie_details mid resp writeOk (runCacheOps ops)).1 = some m) :
    m.id = some mid := by
  have hinv := (runCacheOps_inv ops).2
  revert h
  unfold get_movie_details
  cases resp with
  | none =>
    intro h
    exact lookupMovie_id _ mid m hinv h
  | some data =>
    dsimp only
    by_cases hid : data.id = some mid
    · rw [if_pos hid]
      intro h
      cases h
      exact hid
    · rw [if_neg hid]
      intro h
      exact lookupMovie_id _ mid m hinv h

/-- C3 witness: a live fetch for id 5 answering with the record `mHeat`
(whose id is 5) is returned, and the theorem pins its identifier. -/
theorem C3_witness : mHeat.id = some 5 :=
  C3_details_id_matches [] 5 (some mHeat) true mHeat (by decide)

/-! ## Claim C4 -/

/-- C4: when the live recent query and the trending fallback both fail or
yield no complete records, `get_recent_movies` returns exactly the list in
the `recent` snapshot, or the empty list when nothing readable was ever
cached; the cache is also left untouched. -/
theorem C4_recent_falls_back_to_cache (live trend : Option ListPayload)
    (writeOk : Bool) (st : CacheState)
    (hlive : usableResults live = none) (htrend : usableResults trend = none) :
    (get_recent_movies live trend writeOk st).1 = st.recent.getD [] ∧
    (get_recent_movies live trend writeOk st).2 = st := by
  unfold get_recent_movies
  rw [hlive, htrend]
  cases hc : st.recent with
  | none => exact ⟨rfl, rfl⟩
  | some cached =>
    cases cached with
    | nil => exact ⟨rfl, rfl⟩
    | cons a l => exact ⟨rfl, rfl⟩

/-- C4 witness: with both fetches failed outright and `[mHeat]` previously
cached under the recent key, precisely `[mHeat]` comes back. -/
theorem C4_witness :
    (get_recent_movies none none true
      { recent := some [mHeat], movieFiles := [] }).1 = [mHeat] :=
  (C4_recent_falls_back_to_cache none none true
    { recent := some [mHeat], movieFiles := [] } rfl rfl).1

/-! ## Claim C5 -/

/-- C5: over every cache state reachable from process start and arbitrary
API responses, every record `get_recent_movies` returns — including those
served from the snapshot fallback — has a non-empty identifier, a non-empty
title and a non-empty poster path. -/
theorem C5_recent_records_complete (ops : List CacheOp)
    (live trend : Option ListPayload) (writeOk : Bool) (m : Movie)
    (hm : m ∈ (get_recent_movies live trend writeOk (runCacheOps ops)).1) :
    (∃ n, m.id = some n ∧ n ≠ 0) ∧ (∃ t, m.title = some t ∧ strEmpty t = false) ∧
    (∃ p, m.poster_path = some p ∧ strEmpty p = false) := by
  rw [← movieComplete_iff]
  have hinv := (runCacheOps_inv ops).1
  revert hm
  unfold get_recent_movies
  cases hl : usableResults live with
  | some movies =>
    intro hm
    exact usableResults_complete live movies hl m hm
  | none =>
    cases ht : usableResults trend with
    | some movies =>
      intro hm
      exact usableResults_complete trend movies ht m hm
    | none =>
      cases hc : (runCacheOps ops).recent with
      | none => intro hm; simp at hm
      | some cached =>
        cases cached with
        | nil => intro hm; simp at hm
        | cons a l =>
          intro hm
          exact hinv (a :: l) hc m hm

/-- C5 witness: a live response mixing a complete and an incomplete record
yields only the complete one, and the theorem certifies its fields. -/
theorem C5_witness :
    (∃ n, mHeat.id = some n ∧ n ≠ 0) ∧
    (∃ t, mHeat.title = some t ∧ strEmpty t = false) ∧
    (∃ p, mHeat.poster_path = some p ∧ strEmpty p = false) :=
  C5_recent_records_complete []
    (some { results := some [mNoId, mHeat] }) none true mHeat (by decide)

/-! ## Claim C7 -/

/-- C7: a snapshot write failure never raises — `cache_write` returns
normally on every input, the failed write merely keeping the old file
content — and a successful live recent fetch with a non-empty filtered list
is returned to the caller whether or not the disk write succeeded. -/
theorem C7_cache_write_never_raises {α : Type} (ok : Bool) (old new : α)
    (live trend : Option ListPayload) (st : CacheState)
    (results movies : List Movie)
    (hres : resultsOf live = some results)
    (hfil : results.filter movieComplete = movies)
    (hne : movies ≠ []) :
    cache_write ok old new = (if ok then new else old) ∧
    (get_recent_movies live trend ok st).1 = movies := by
  constructor
  · cases ok <;> simp [cache_write, diskWrite]
  · have husable : usableResults live = some movies := by
      unfold usableResults
      rw [hres]
      simp only [hfil]
      rw [if_neg (by simpa [List.isEmpty_iff] using hne)]
    unfold get_recent_movies
    rw [husable]

/-- C7 witness: with the disk unwritable (`ok = false`), the freshly fetched
filtered list `[mHeat]` is still what the caller receives, and the failed
write leaves the old cache content in place. -/
theorem C7_witness :
    cache_write false (some [mNoId]) (some [mHeat]) = some [mNoId] ∧
    (get_recent_movies (some { results := some [mNoId, mHeat] }) none false
      initCache).1 = [mHeat] := by
  have h := C7_cache_write_never_raises false (some [mNoId]) (some [mHeat])
    (some { results := some [mNoId, mHeat] }) none initCache
    [mNoId, mHeat] [mHeat] rfl (by decide) (by decide)
  exact ⟨h.1, h.2⟩

/-! ## Claim C1 -/

/-- C1: the code diverges from the claimed seat validation. With
seats = "abc" the presence check passes and `int("abc")` raises an uncaught
`ValueError`: the request crashes instead of rendering a validation message.
With seats = "0" the string is truthy, `int("0")` succeeds, and a row with
seat count 0 is committed instead of being rejected. Only missing or empty
fields take the validation branch. -/
theorem C1_seat_validation_divergence :
    movie_page_post 5 uAlice formAbc 0 initDb = .error () ∧
    movie_page_post 5 uAlice formZero 0 initDb =
      .ok (successOutcome, afterBooking 5 uAlice formZero 0 initDb 0) ∧
    (afterBooking 5 uAlice formZero 0 initDb 0).bookings.map (fun b => b.seats) = [0] ∧
    movie_page_post 5 uAlice { formTwo with seats := none } 0 initDb =
      .ok ({ booking_success := false, message := some validationMsg,
             message_type := some "warning" }, initDb) := by
  refine ⟨rfl, ?_, rfl, rfl⟩
  exact post_success_eq 5 uAlice formZero 0 initDb 0 rfl rfl rfl rfl rfl

/-! ## Claim C2 -/

/-- C2: every database state reachable from a fresh store by booking and
cancellation requests has pairwise-distinct (user, movie, showtime, date)
tuples; and after a first valid booking commits, a second attempt by the
same user for the same movie, showtime and date is rejected with the
duplicate classification, the table is unchanged, and exactly one matching
row exists. -/
theorem C2_booking_uniqueness (ops : List DbOp) (mid : Int) (u : UserRec)
    (form1 form2 : BookingForm) (t1 t2 : Nat) (st : DbState) (n : Int)
    (hs1 : truthyStr form1.seats = true) (hsh1 : truthyStr form1.showtime = true)
    (hd1 : truthyStr form1.date = true)
    (hn1 : pyInt (form1.seats.getD "") = some n)
    (hdup : hasDuplicate st u.id mid (form1.showtime.getD "") (form1.date.getD "") = false)
    (hs2 : truthyStr form2.seats = true)
    (hsh2 : form2.showtime = form1.showtime) (hd2 : form2.date = form1.date) :
    noDupKeys (runDbOps ops) ∧
    movie_page_post mid u form1 t1 st =
      .ok (successOutcome, afterBooking mid u form1 t1 st n) ∧
    movie_page_post mid u form2 t2 (afterBooking mid u form1 t1 st n) =
      .ok (dupOutcome, afterBooking mid u form1 t1 st n) ∧
    matchCount (afterBooking mid u form1 t1 st n) u.id mid
      (form1.showtime.getD "") (form1.date.getD "") = 1 := by
  have hdup2 : hasDuplicate (afterBooking mid u form1 t1 st n) u.id mid
      (form2.showtime.getD "") (form2.date.getD "") = true := by
    rw [hsh2, hd2]
    unfold hasDuplicate afterBooking
    rw [List.any_append]
    simp [postRow]
  refine ⟨runDbOps_noDup ops,
    post_success_eq mid u form1 t1 st n hs1 hsh1 hd1 hn1 hdup, ?_, ?_⟩
  · exact post_duplicate_eq mid u form2 t2 _
      hs2 (by rw [hsh2]; exact hsh1) (by rw [hd2]; exact hd1) hdup2
  · unfold matchCount afterBooking
    rw [List.countP_append]
    have h0 : List.countP (fun b => b.movie_id == mid && b.user_id == u.id &&
        b.showtime == form1.showtime.getD "" && b.date == form1.date.getD "")
        st.bookings = 0 := by
      rw [List.countP_eq_zero]
      rw [hasDuplicate, List.any_eq_false] at hdup
      exact hdup
    rw [h0]
    simp [postRow]

/-- C2 witness: booking movie 5 twice for the same showtime and date from a
fresh database — the first commits, the second is rejected as a duplicate
with exactly one matching row left. -/
theorem C2_witness :
    noDupKeys (runDbOps []) ∧
    movie_page_post 5 uAlice formTwo 0 initDb =
      .ok (successOutcome, afterBooking 5 uAlice formTwo 0 initDb 2) ∧
    movie_page_post 5 uAlice formTwo 1 (afterBooking 5 uAlice formTwo 0 initDb 2) =
      .ok (dupOutcome, afterBooking 5 uAlice formTwo 0 initDb 2) ∧
    matchCount (afterBooking 5 uAlice formTwo 0 initDb 2) uAlice.id 5
      (formTwo.showtime.getD "") (formTwo.date.getD "") = 1 :=
  C2_booking_uniqueness [] 5 uAlice formTwo formTwo 0 1 initDb 2
    rfl rfl rfl rfl rfl rfl rfl rfl

/-! ## Claim C6 -/

/-- C6: cancellation deletes a row only when the row's stored contact email
equals the acting user's email — any row that disappears matched both the
requested id and that email — and when no owned row with the requested id
exists the handler redirects, deletes nothing and leaves the table exactly
as it was (the operation is a total function: it cannot raise). -/
theorem C6_cancel_ownership (booking_id : Nat) (u : UserRec) (st : DbState) :
    ((∀ b ∈ st.bookings, ¬(b.id = booking_id ∧ b.email = u.email)) →
      cancel_booking booking_id u.email st = (false, st)) ∧
    (∀ b ∈ st.bookings, b ∉ (cancel_booking booking_id u.email st).2.bookings →
      b.id = booking_id ∧ b.email = u.email) := by
  constructor
  · intro hnone
    unfold cancel_booking
    have hfind : st.bookings.find?
        (fun b => b.id == booking_id && b.email == u.email) = none := by
      rw [List.find?_eq_none]
      intro b hb
      simpa using hnone b hb
    rw [hfind]
  · intro b hb hnot
    revert hnot
    unfold cancel_booking
    cases hf : st.bookings.find? fun x => x.id == booking_id && x.email == u.email with
    | none => intro hnot; exact absurd hb hnot
    | some c =>
      dsimp only
      intro hnot
      simpa using eraseFirstBy_dropped _ _ b hb hnot

/-- C6 witness: Alice cancelling booking id 1, which belongs to Bob, is a
no-op that redirects. -/
theorem C6_witness :
    cancel_booking 1 uAlice.email { bookings := [rowBob], nextId := 2 } =
      (false, { bookings := [rowBob], nextId := 2 }) :=
  (C6_cancel_ownership 1 uAlice { bookings := [rowBob], nextId := 2 }).1 (by decide)

/-! ## Claim C8 -/

/-- Bound on the attempt counter of the retry loop. -/
theorem attemptsGo_le (cfg : RetryConfig) (statuses : Nat → Nat) :
    ∀ (b i : Nat), attemptsMade.go cfg statuses b i ≤ b := by
  intro b
  induction b with
  | zero => intro i; simp [attemptsMade.go]
  | succ k ih =>
    intro i
    unfold attemptsMade.go
    by_cases hmem : statuses i ∈ cfg.status_forcelist
    · rw [if_pos hmem]; have := ih (i + 1); omega
    · rw [if_neg hmem]; omega

/-- A further attempt is issued only after a forcelisted status. -/
theorem attemptsGo_forcelist (cfg : RetryConfig) (statuses : Nat → Nat) :
    ∀ (b j i : Nat), j + 2 ≤ attemptsMade.go cfg statuses b i →
      statuses (i + j) ∈ cfg.status_forcelist := by
  intro b
  induction b with
  | zero =>
    intro j i h
    unfold attemptsMade.go at h
    exact absurd h (by omega)
  | succ k ih =>
    intro j i h
    unfold attemptsMade.go at h
    by_cases hmem : statuses i ∈ cfg.status_forcelist
    · rw [if_pos hmem] at h
      cases j with
      | zero => simpa using hmem
      | succ j' =>
        have hj := ih j' (i + 1) (by omega)
        have harith : i + 1 + j' = i + (j' + 1) := by omega
        rwa [harith] at hj
    · rw [if_neg hmem] at h
      exact absurd h (by omega)

/-- C8 (amended): the mounted policy allows at most `total + 1 = 5` HTTP
attempts per GET — one initial attempt plus up to 4 retries — an attempt is
followed by another only when its status is in {429, 500, 502, 503, 504},
and the configured exponential-backoff factor is 0.6 (the factor the
urllib3 backoff schedule is derived from; the sleep durations themselves
live inside the library and are not modelled here). -/
theorem C8_retry_policy (statuses : Nat → Nat) :
    attemptsMade retries statuses ≤ retries.total + 1 ∧
    (∀ j, j + 2 ≤ attemptsMade retries statuses →
      statuses j ∈ retries.status_forcelist) ∧
    retries.total = 4 ∧ retries.backoff_factor = 0.6 ∧
    retries.status_forcelist = [429, 500, 502, 503, 504] ∧
    retries.allowed_methods = ["GET"] := by
  refine ⟨attemptsGo_le retries statuses (retries.total + 1) 0, ?_, rfl, rfl, rfl, rfl⟩
  intro j h
  simpa using attemptsGo_forcelist retries statuses (retries.total + 1) j 0 h

/-- C8 counterexample: a server answering 503 to every attempt draws five
HTTP attempts from the configured policy, refuting "at most 4 attempts in
total". -/
theorem C8_counterexample :
    attemptsMade retries (fun _ => 503) = 5 ∧
    ¬ attemptsMade retries (fun _ => 503) ≤ 4 := by
  decide

/-- C8 witness: the amended bound instantiated on the all-503 server. -/
theorem C8_witness :
    attemptsMade retries (fun _ => 503) ≤ retries.total + 1 ∧
    (503 : Nat) ∈ retries.status_forcelist := by
  have h := C8_retry_policy (fun _ => 503)
  exact ⟨h.1, h.2.1 0 (by decide)⟩

/-! ## Claim C9 -/

/-- C9 counterexample: a form that submits `movie_title` as the empty string
gets `"Unknown"` stored, not the submitted value, because Python `or`
treats the empty string like a missing field. -/
theorem C9_counterexample :
    postedTitles (movie_page_post 5 uAlice formEmptyTitle 0 initDb) = ["Unknown"] ∧
    formEmptyTitle.movie_title = some "" ∧ ("Unknown" : String) ≠ "" := by
  refine ⟨rfl, rfl, by decide⟩

/-- C9 (amended): for every valid non-duplicate submission the committed
row's `movie_title` is the submitted value when it is non-empty, and the
literal `"Unknown"` when the field is omitted or submitted empty; and the
stored rows never depend on the movie catalog — the database component of
the full handler is identical for every detail-fetch response and cache
state. -/
theorem C9_title_stored_verbatim (mid : Int) (u : UserRec) (form : BookingForm)
    (now : Nat) (db : DbState) (n : Int)
    (hs : truthyStr form.seats = true) (hsh : truthyStr form.showtime = true)
    (hd : truthyStr form.date = true)
    (hn : pyInt (form.seats.getD "") = some n)
    (hdup : hasDuplicate db u.id mid (form.showtime.getD "") (form.date.getD "") = false) :
    (movie_page_post mid u form now db =
      .ok (successOutcome, afterBooking mid u form now db n) ∧
     (postRow mid u form now db.nextId n).movie_title = titleOrUnknown form.movie_title) ∧
    (titleOrUnknown none = "Unknown" ∧ titleOrUnknown (some "") = "Unknown" ∧
     ∀ t, strEmpty t = false → titleOrUnknown (some t) = t) ∧
    (∀ r1 r2 ok1 ok2 c1 c2, dbOf (movie_page_handler mid u form now r1 ok1 db c1) =
       dbOf (movie_page_handler mid u form now r2 ok2 db c2)) := by
  refine ⟨⟨post_success_eq mid u form now db n hs hsh hd hn hdup, rfl⟩,
    ⟨rfl, rfl, ?_⟩, ?_⟩
  · intro t ht
    simp [titleOrUnknown, ht]
  · intro r1 r2 ok1 ok2 c1 c2
    unfold movie_page_handler dbOf
    cases movie_page_post mid u form now db with
    | error e => rfl
    | ok out =>
      rcases out with ⟨out, db'⟩
      dsimp only
      cases (get_movie_details mid r1 ok1 c1).1 <;>
        cases (get_movie_details mid r2 ok2 c2).1 <;> rfl

/-- C9 witness: the amended statement instantiated on a concrete valid
booking. -/
theorem C9_witness :
    (postRow 5 uAlice formTwo 0 initDb.nextId 2).movie_title =
      titleOrUnknown formTwo.movie_title ∧
    titleOrUnknown (some "") = "Unknown" := by
  have h := C9_title_stored_verbatim 5 uAlice formTwo 0 initDb 2
    rfl rfl rfl rfl rfl
  exact ⟨h.1.2, h.2.1.2.1⟩

/-! ## Claim C10 -/

/-- C10: on a valid non-duplicate POST the validation, duplicate check and
commit all happen before the movie-detail lookup is attempted: the response
is computed from the already-extended database, the committed row is there
for every possible detail response — in particular when the lookup comes
back absent the "details unavailable" page is rendered while the booking
stays committed. -/
theorem C10_commit_precedes_lookup (mid : Int) (u : UserRec) (form : BookingForm)
    (now : Nat) (detailResp : Option Movie) (writeOk : Bool)
    (db : DbState) (cache : CacheState) (n : Int)
    (hs : truthyStr form.seats = true) (hsh : truthyStr form.showtime = true)
    (hd : truthyStr form.date = true)
    (hn : pyInt (form.seats.getD "") = some n)
    (hdup : hasDuplicate db u.id mid (form.showtime.getD "") (form.date.getD "") = false) :
    movie_page_handler mid u form now detailResp writeOk db cache =
      .ok ((match (get_movie_details mid detailResp writeOk cache).1 with
            | none => PageResponse.unavailable
            | some movie =>
              PageResponse.page movie true (some successMsg) (some "success")),
           afterBooking mid u form now db n,
           (get_movie_details mid detailResp writeOk cache).2) := by
  unfold movie_page_handler
  rw [post_success_eq mid u form now db n hs hsh hd hn hdup]
  dsimp only
  cases hf : (get_movie_details mid detailResp writeOk cache).1 with
  | none => rfl
  | some movie => rfl

/-- C10 witness: the detail fetch fails against an empty cache, the
unavailable page is rendered, and the booking is nevertheless committed. -/
theorem C10_witness :
    movie_page_handler 5 uAlice formTwo 0 none true initDb initCache =
      .ok (PageResponse.unavailable, afterBooking 5 uAlice formTwo 0 initDb 2,
           initCache) := by
  have h := C10_commit_precedes_lookup 5 uAlice formTwo 0 none true initDb initCache 2
    rfl rfl rfl rfl rfl
  exact h

end MovieBook
